import Mathlib

/-!
# Wi-Fi setup page (`src/ui/js/index.js`)

A shallow embedding of the page script: the values the server can send, the
part of the document the script reads and writes, and the callbacks
`populateNetworks`, `showHideFormFields`, the two `/networks` handlers of
`fetchNetworks` and the two `/connect` handlers of the submit listener.

Two functions of the JavaScript runtime are taken as parameters throughout:
`parse` stands for `JSON.parse` (`none` when it throws) and `upper` for
`String.prototype.toUpperCase`.  Theorems hold for every choice of them
unless a hypothesis says what they do on a given string.

A string conversion can throw a `TypeError`; a callback that throws stops
where it is and leaves the document as it was at that point.  The callbacks
of `fetchNetworks` therefore return a `Run`: the page they leave and whether
they ran to their end.
-/

namespace WifiConnect

/-! ## JavaScript values -/

/-- A JavaScript value as the script can receive it from the server. A
number is given by the two things the script observes of it: whether it is
falsy (`0`, `-0`, `NaN`) and the text `String` gives for it. An object is
given by its own properties; none of them is a function. -/
inductive JSValue where
  | undefined : JSValue
  | null : JSValue
  | bool (b : Bool) : JSValue
  | num (falsy : Bool) (printed : String) : JSValue
  | str (s : String) : JSValue
  | arr (items : List JSValue) : JSValue
  | obj (fields : List (String × JSValue)) : JSValue

namespace JSValue

/-- ToBoolean: `undefined`, `null`, `false`, a falsy number and `''` are
falsy. -/
def truthy : JSValue → Bool
  | undefined => false
  | null => false
  | bool b => b
  | num falsy _ => !falsy
  | str s => s != ""
  | arr _ => true
  | obj _ => true

/-- The expression `a || b`. -/
def or (a b : JSValue) : JSValue := if a.truthy then a else b

/-- The expression `a && b`. -/
def and (a b : JSValue) : JSValue := if a.truthy then b else a

/-- Property read `v.key` on a value that is not `null` or `undefined`:
an own property of an object, `undefined` otherwise. The field list of an
object holds each key once; the first binding of a key is the one read. -/
def getProp (v : JSValue) (key : String) : JSValue :=
  match v with
  | obj fields =>
    match fields.find? (fun kv => kv.1 == key) with
    | some kv => kv.2
    | none => undefined
  | _ => undefined

/-- Whether an object has an own property of the given name. -/
def hasOwn (fields : List (String × JSValue)) (key : String) : Bool :=
  fields.any (fun kv => kv.1 == key)

mutual
/-- The conversion `String(v)`, which is also the conversion `.text(v)` and
`.attr(name, v)` apply; `none` when it throws a `TypeError`. An object
prints through `Object.prototype.toString` unless it has an own `toString`
property: that property is not a function, nor can `valueOf` give a
primitive, so the conversion throws. -/
def toStr : JSValue → Option String
  | undefined => some "undefined"
  | null => some "null"
  | bool b => some (if b then "true" else "false")
  | num _ printed => some printed
  | str s => some s
  | arr items => joinItems items
  | obj fields => if hasOwn fields "toString" then none else some "[object Object]"
/-- `Array.prototype.join(',')`, through which an array prints. -/
def joinItems : List JSValue → Option String
  | [] => some ""
  | [x] => itemStr x
  | x :: y :: rest =>
    match itemStr x with
    | none => none
    | some a =>
      match joinItems (y :: rest) with
      | none => none
      | some b => some (a ++ "," ++ b)
/-- One item of a joined array: `null` and `undefined` print as the empty
string, anything else as `String` prints it. -/
def itemStr : JSValue → Option String
  | undefined => some ""
  | null => some ""
  | bool b => some (if b then "true" else "false")
  | num _ printed => some printed
  | str s => some s
  | arr items => joinItems items
  | obj fields => if hasOwn fields "toString" then none else some "[object Object]"
end

end JSValue

/-! ## The document -/

/-- An `<option>` element of `#ssid-select`: its text and its `value` and
`data-security` attributes (`none` when the attribute is absent). -/
structure OptionEl where
  text : String
  value : Option String
  dataSecurity : Option String
  deriving DecidableEq, Repr

/-- The state the script reads and writes: the closure variable `networks`
(`none` while it is still `undefined`), the options of `#ssid-select` and
the index of the selected one, the `hidden` class of the three credential
groups, of `#no-networks-message` and of `#submit-message`, the display
state of the `.before-submit` region and the text of `#submit-message`. -/
structure Page where
  networks : Option (List JSValue)
  options : List OptionEl
  selected : Option Nat
  identityHidden : Bool
  passphraseHidden : Bool
  hiddenSsidHidden : Bool
  beforeSubmitDisplayed : Bool
  noNetworksHidden : Bool
  submitHidden : Bool
  submitText : String

/-- Which credential groups are visible. -/
structure Visibility where
  identityShown : Bool
  passphraseShown : Bool
  hiddenSsidShown : Bool
  deriving DecidableEq, Repr

/-- The visible credential groups of a page. -/
def Page.groups (s : Page) : Visibility :=
  ⟨!s.identityHidden, !s.passphraseHidden, !s.hiddenSsidHidden⟩

/-- The part of a page a `/networks` response decides. -/
structure CatalogView where
  networks : Option (List JSValue)
  options : List OptionEl
  beforeSubmitDisplayed : Bool
  noNetworksHidden : Bool

/-- The catalog part of a page. -/
def Page.catalog (s : Page) : CatalogView :=
  ⟨s.networks, s.options, s.beforeSubmitDisplayed, s.noNetworksHidden⟩

/-- The option found by `$(this).find(':selected')`, if any. -/
def Page.selectedOption (s : Page) : Option OptionEl :=
  match s.selected with
  | some i => s.options.get? i
  | none => none

/-- `$select.empty()`: every option is removed. -/
def emptySelect (s : Page) : Page :=
  { s with options := [], selected := none }

/-- `$select.append(option)`. A single-choice control with no selected
option selects its first option when options are inserted. -/
def appendOption (s : Page) (o : OptionEl) : Page :=
  { s with
    options := s.options ++ [o]
    selected := match s.selected with
      | some i => some i
      | none => some 0 }

/-! ## `showHideFormFields` -/

/-- The expression `$opt.attr('data-security') || 'NONE'`. -/
def attrOrNone (attr : Option String) : String :=
  match attr with
  | some a => if a = "" then "NONE" else a
  | none => "NONE"

/-- The local `security` of `showHideFormFields`. -/
def selectedSecurity (upper : String → String) (s : Page) : String :=
  upper (attrOrNone (s.selectedOption.bind (fun o => o.dataSecurity)))

/-- The `change` handler of `#ssid-select`. -/
def showHideFormFields (upper : String → String) (s : Page) : Page :=
  let security := selectedSecurity upper s
  -- start off with all fields hidden
  let s := { s with identityHidden := true, passphraseHidden := true,
                    hiddenSsidHidden := true }
  if security = "NONE" then
    s
  else if security = "ENTERPRISE" then
    { s with identityHidden := false, passphraseHidden := false }
  else if security = "HIDDEN" then
    { s with hiddenSsidHidden := false, passphraseHidden := false }
  else
    -- WEP/WPA/WPA2 require a passphrase
    { s with passphraseHidden := false }

/-- The groups `showHideFormFields` leaves visible, by the value of its local
`security`: the branches of the handler read as a function. -/
def visibilityOf (security : String) : Visibility :=
  if security = "NONE" then ⟨false, false, false⟩
  else if security = "ENTERPRISE" then ⟨true, true, false⟩
  else if security = "HIDDEN" then ⟨false, true, true⟩
  else ⟨false, true, false⟩

/-- The user picks the option at index `i`; the control fires `change`. -/
def selectOption (upper : String → String) (i : Nat) (s : Page) : Page :=
  showHideFormFields upper { s with selected := some i }

/-! ## `populateNetworks` -/

/-- What `populateNetworks` is called with: nothing, `null`, or an array. -/
inductive NetworksArg where
  | undefined : NetworksArg
  | null : NetworksArg
  | list (items : List JSValue) : NetworksArg

/-- The expression `list || []`. -/
def NetworksArg.orEmpty : NetworksArg → List JSValue
  | .list items => items
  | .undefined => []
  | .null => []

/-- The sentinel option appended first. -/
def hiddenSentinel : OptionEl :=
  { text := "Hidden network", value := some "", dataSecurity := some "HIDDEN" }

/-- The local `ssid` of the `$.each` callback: `(val && val.ssid) || ''`. -/
def entrySsid (val : JSValue) : JSValue :=
  (val.and (val.getProp "ssid")).or (.str "")

/-- The local `sec` of the `$.each` callback:
`String((val && val.security) || '').toUpperCase()`; `none` when `String`
throws. -/
def entrySec (upper : String → String) (val : JSValue) : Option String :=
  match ((val.and (val.getProp "security")).or (.str "")).toStr with
  | some text => some (upper text)
  | none => none

/-- The option the `$.each` callback builds for one entry, `none` when the
callback throws before `$select.append` is reached: first `sec` is
computed, then `.text(ssid)` and `.attr('value', ssid)` store the string
form of `ssid`. -/
def renderOption (upper : String → String) (val : JSValue) : Option OptionEl :=
  let ssid := entrySsid val
  match entrySec upper val with
  | none => none
  | some sec =>
    match ssid.toStr with
    | none => none
    | some text => some { text := text, value := some text, dataSecurity := some sec }

/-- How a callback ends: `done` when it ran to its end, `threw` when an
exception stopped it; either way with the page it left. -/
inductive Run where
  | done (page : Page) : Run
  | threw (page : Page) : Run

/-- The page a callback leaves. -/
def Run.page : Run → Page
  | .done page => page
  | .threw page => page

/-- Whether a callback ran to its end. -/
def Run.completed : Run → Bool
  | .done _ => true
  | .threw _ => false

/-- The loop `$.each(networks, ...)`: one option is appended per entry, in
order; the loop stops at the first entry whose callback throws. -/
def eachEntry (upper : String → String) : List JSValue → Page → Run
  | [], s => .done s
  | val :: rest, s =>
    match renderOption upper val with
    | some o => eachEntry upper rest (appendOption s o)
    | none => .threw s

/-- The function `populateNetworks(list)`. -/
def populateNetworks (upper : String → String) (list : NetworksArg)
    (s : Page) : Run :=
  let networks := list.orEmpty
  let s := { s with networks := some networks }
  let s := emptySelect s
  let s := appendOption s hiddenSentinel
  match eachEntry upper networks s with
  | .threw s => .threw s
  | .done s =>
    -- Trigger form field visibility update
    .done (showHideFormFields upper s)

/-- The options the loop of `populateNetworks` appends for a list: those of
the entries before the first one whose callback throws. -/
def renderedPrefix (upper : String → String) : List JSValue → List OptionEl
  | [] => []
  | val :: rest =>
    match renderOption upper val with
    | some o => o :: renderedPrefix upper rest
    | none => []

/-- Whether the callback of the loop throws on no entry of the list. -/
def allRender (upper : String → String) (l : List JSValue) : Bool :=
  l.all (fun val => (renderOption upper val).isSome)

/-! ## `fetchNetworks` -/

/-- The local `list` of the success callback. -/
def resolveList (parse : String → Option JSValue) (data : JSValue) : JSValue :=
  match data with
  | .str text =>
    match parse text with
    | some v => v
    | none => .arr []
  | d => d.or (.arr [])

/-- The test `!Array.isArray(list) || list.length === 0`. -/
def notArrayOrEmpty : JSValue → Bool
  | .arr items => items.length == 0
  | _ => true

/-- The array a value is, `[]` when it is not one. -/
def arrayItems : JSValue → List JSValue
  | .arr items => items
  | _ => []

/-- The `success` callback of the `/networks` request. -/
def onNetworksSuccess (parse : String → Option JSValue) (upper : String → String)
    (data : JSValue) (s : Page) : Run :=
  let list := resolveList parse data
  if notArrayOrEmpty list then
    let s := { s with beforeSubmitDisplayed := false }
    let s := { s with noNetworksHidden := false }
    populateNetworks upper (.list []) s
  else
    let s := { s with beforeSubmitDisplayed := true }
    let s := { s with noNetworksHidden := true }
    populateNetworks upper (.list (arrayItems list)) s

/-- The `error` callback of the `/networks` request. -/
def onNetworksError (upper : String → String) (s : Page) : Run :=
  let s := { s with beforeSubmitDisplayed := false }
  let s := { s with noNetworksHidden := false }
  populateNetworks upper (.list []) s

/-- How a `/networks` request ends: with a response body or with a
transport failure. -/
inductive FetchOutcome where
  | success (data : JSValue) : FetchOutcome
  | failure : FetchOutcome

/-- The callback `$.ajax` runs for an outcome. -/
def handleFetch (parse : String → Option JSValue) (upper : String → String)
    (r : FetchOutcome) (s : Page) : Run :=
  match r with
  | .success data => onNetworksSuccess parse upper data s
  | .failure => onNetworksError upper s

/-! ## The connect form -/

/-- The text the `fail` callback writes. -/
def failureText : String := "Failed to submit. Please try again."

/-- The success callback of `$.post('/connect', ...)`. -/
def onConnectSuccess (s : Page) : Page :=
  let s := { s with beforeSubmitDisplayed := false }
  { s with submitHidden := false }

/-- The `fail` callback of `$.post('/connect', ...)`. -/
def onConnectFail (s : Page) : Page :=
  let s := { s with submitHidden := false }
  { s with submitText := failureText }

/-- How a `/connect` submission ends. -/
inductive SubmitOutcome where
  | ok : SubmitOutcome
  | failed : SubmitOutcome

/-- The callback run for a submission outcome. -/
def handleSubmit (r : SubmitOutcome) (s : Page) : Page :=
  match r with
  | .ok => onConnectSuccess s
  | .failed => onConnectFail s

/-- The page as loaded, before any callback has run: `statusText` is the
text the markup gives `#submit-message`, which starts hidden. -/
def initialPage (statusText : String) : Page :=
  { networks := none, options := [], selected := none,
    identityHidden := true, passphraseHidden := true, hiddenSsidHidden := true,
    beforeSubmitDisplayed := true, noNetworksHidden := true,
    submitHidden := true, submitText := statusText }

/-! ## The specification's words -/

/-- The security classes the specification names. -/
inductive SecurityClass where
  | NONE | WEP | WPA | WPA2 | ENTERPRISE | HIDDEN
  deriving DecidableEq, Repr

/-- The upper-case name of a class, as it stands in `data-security`. -/
def SecurityClass.name : SecurityClass → String
  | .NONE => "NONE"
  | .WEP => "WEP"
  | .WPA => "WPA"
  | .WPA2 => "WPA2"
  | .ENTERPRISE => "ENTERPRISE"
  | .HIDDEN => "HIDDEN"

/-- The visibility table of the specification, row by row: identity,
passphrase, hidden-ssid. -/
def specVisibility : SecurityClass → Visibility
  | .NONE => ⟨false, false, false⟩
  | .ENTERPRISE => ⟨true, true, false⟩
  | .HIDDEN => ⟨false, true, true⟩
  | .WEP => ⟨false, true, false⟩
  | .WPA => ⟨false, true, false⟩
  | .WPA2 => ⟨false, true, false⟩

/-- The outcomes of a `/networks` request the specification treats as
"no networks": a transport failure, an empty array, a text that does not
parse, a text that parses to an empty array or to something that is not an
array, and any other body that is neither a text nor an array (an absent
body included). -/
inductive NonSuccess (parse : String → Option JSValue) : FetchOutcome → Prop where
  | transport : NonSuccess parse .failure
  | emptyArray : NonSuccess parse (.success (.arr []))
  | unparseable (text : String) (h : parse text = none) :
      NonSuccess parse (.success (.str text))
  | parsedEmpty (text : String) (h : parse text = some (.arr [])) :
      NonSuccess parse (.success (.str text))
  | parsedNonArray (text : String) (v : JSValue) (h : parse text = some v)
      (hv : ∀ items, v ≠ .arr items) :
      NonSuccess parse (.success (.str text))
  | otherBody (d : JSValue) (hs : ∀ text, d ≠ .str text) (ha : ∀ items, d ≠ .arr items) :
      NonSuccess parse (.success d)

/-- A payload resolves to the array `l`: it is that array, or a text that
parses to it. -/
def ResolvesTo (parse : String → Option JSValue) (data : JSValue)
    (l : List JSValue) : Prop :=
  data = .arr l ∨ ∃ text, data = .str text ∧ parse text = some (.arr l)

/-! ## Sample inputs -/

/-- Upper-casing of the ASCII letters, which is what `toUpperCase` does on
ASCII strings; other characters are left alone. -/
def asciiUpper (s : String) : String := String.mk (s.data.map Char.toUpper)

/-- A fragment of `JSON.parse`: the three texts below parse as shown, any
other text is rejected. Used for sample inputs only. -/
def sampleParse (text : String) : Option JSValue :=
  if text = "[]" then some (.arr [])
  else if text = "null" then some .null
  else if text = "7" then some (.num false "7")
  else none

/-- The entry `{ssid: name, security: sec}`. -/
def entry (name sec : String) : JSValue :=
  .obj [("ssid", .str name), ("security", .str sec)]

/-- The entry `{ssid: name, security: {toString: 1}}`, valid JSON whose
security has no string form. -/
def badSecurityEntry (name : String) : JSValue :=
  .obj [("ssid", .str name), ("security", .obj [("toString", .num false "1")])]

/-- The entry `{ssid: {toString: 1}, security: sec}`, valid JSON whose ssid
has no string form. -/
def badSsidEntry (sec : String) : JSValue :=
  .obj [("ssid", .obj [("toString", .num false "1")]), ("security", .str sec)]

/-- The page after the catalog `[{ssid:"Office",security:"enterprise"}]` was
loaded on a fresh page and that network selected: the identity and
passphrase groups are shown, the hidden-ssid group is hidden. -/
def enterprisePage : Page :=
  selectOption asciiUpper 1
    (populateNetworks asciiUpper (.list [entry "Office" "enterprise"])
      (initialPage "Connecting")).page

/-- A page showing a previous catalog with every credential group visible. -/
def busyPage : Page :=
  { networks := some [entry "Old" "wpa"],
    options := [hiddenSentinel, ⟨"Old", some "Old", some "WPA"⟩],
    selected := some 1,
    identityHidden := false, passphraseHidden := false, hiddenSsidHidden := false,
    beforeSubmitDisplayed := true, noNetworksHidden := true,
    submitHidden := true, submitText := "Connecting" }

/-! ## Lemmas on `showHideFormFields` -/

theorem selectedSecurity_setGroups (upper : String → String) (s : Page) (a b c : Bool) :
    selectedSecurity upper
      { s with identityHidden := a, passphraseHidden := b, hiddenSsidHidden := c }
      = selectedSecurity upper s := rfl

theorem showHideFormFields_groups (upper : String → String) (s : Page) :
    (showHideFormFields upper s).groups = visibilityOf (selectedSecurity upper s) := by
  unfold showHideFormFields visibilityOf
  simp only []
  split_ifs <;> rfl

theorem showHideFormFields_eq (upper : String → String) (s : Page) :
    showHideFormFields upper s =
      { s with
        identityHidden := !(visibilityOf (selectedSecurity upper s)).identityShown
        passphraseHidden := !(visibilityOf (selectedSecurity upper s)).passphraseShown
        hiddenSsidHidden := !(visibilityOf (selectedSecurity upper s)).hiddenSsidShown } := by
  unfold showHideFormFields visibilityOf
  simp only []
  split_ifs <;> rfl

theorem showHideFormFields_security (upper : String → String) (s : Page) :
    selectedSecurity upper (showHideFormFields upper s) = selectedSecurity upper s := by
  unfold showHideFormFields
  simp only []
  split_ifs <;> rfl

theorem showHideFormFields_frame (upper : String → String) (s : Page) :
    (showHideFormFields upper s).networks = s.networks ∧
    (showHideFormFields upper s).options = s.options ∧
    (showHideFormFields upper s).selected = s.selected ∧
    (showHideFormFields upper s).beforeSubmitDisplayed = s.beforeSubmitDisplayed ∧
    (showHideFormFields upper s).noNetworksHidden = s.noNetworksHidden ∧
    (showHideFormFields upper s).submitHidden = s.submitHidden ∧
    (showHideFormFields upper s).submitText = s.submitText := by
  unfold showHideFormFields
  simp only []
  split_ifs <;> simp

theorem visibilityOf_name (c : SecurityClass) :
    visibilityOf c.name = specVisibility c := by
  cases c <;> decide

/-! ## Lemmas on `populateNetworks` and the fetch handlers -/

theorem eachEntry_eq (upper : String → String) (l : List JSValue) (t : Page)
    (i : Nat) (h : t.selected = some i) :
    eachEntry upper l t =
      if allRender upper l then
        .done { t with options := t.options ++ renderedPrefix upper l }
      else
        .threw { t with options := t.options ++ renderedPrefix upper l } := by
  induction l generalizing t with
  | nil => cases t; simp [eachEntry, allRender, renderedPrefix]
  | cons a l ih =>
    cases hr : renderOption upper a with
    | none =>
      cases t
      simp [eachEntry, allRender, renderedPrefix, hr]
    | some o =>
      have h2 : (appendOption t o).selected = some i := by
        simp [appendOption, h]
      have ih2 := ih (appendOption t o) h2
      simp only [eachEntry, hr, ih2]
      cases t
      simp only [appendOption] at h ⊢
      subst h
      simp [allRender, renderedPrefix, hr]

theorem populateNetworks_eq (upper : String → String) (list : NetworksArg) (s : Page) :
    populateNetworks upper list s =
      if allRender upper list.orEmpty then
        .done { s with
          networks := some list.orEmpty
          options := hiddenSentinel :: renderedPrefix upper list.orEmpty
          selected := some 0
          identityHidden := !(visibilityOf (upper "HIDDEN")).identityShown
          passphraseHidden := !(visibilityOf (upper "HIDDEN")).passphraseShown
          hiddenSsidHidden := !(visibilityOf (upper "HIDDEN")).hiddenSsidShown }
      else
        .threw { s with
          networks := some list.orEmpty
          options := hiddenSentinel :: renderedPrefix upper list.orEmpty
          selected := some 0 } := by
  unfold populateNetworks
  simp only []
  rw [eachEntry_eq upper list.orEmpty _ 0 rfl]
  by_cases h : allRender upper list.orEmpty = true
  · simp only [h, if_true]
    rw [showHideFormFields_eq]
    rfl
  · simp only [h]
    rfl

theorem populateNetworks_catalog (upper : String → String) (list : NetworksArg)
    (s : Page) :
    (populateNetworks upper list s).page.catalog
      = ⟨some list.orEmpty, hiddenSentinel :: renderedPrefix upper list.orEmpty,
          s.beforeSubmitDisplayed, s.noNetworksHidden⟩ := by
  rw [populateNetworks_eq]
  split_ifs <;> rfl

theorem populateNetworks_options (upper : String → String) (list : NetworksArg)
    (s : Page) :
    (populateNetworks upper list s).page.options
      = hiddenSentinel :: renderedPrefix upper list.orEmpty :=
  congrArg CatalogView.options (populateNetworks_catalog upper list s)

theorem populateNetworks_selected (upper : String → String) (list : NetworksArg)
    (s : Page) : (populateNetworks upper list s).page.selected = some 0 := by
  rw [populateNetworks_eq]
  split_ifs <;> rfl

theorem populateNetworks_submit (upper : String → String) (list : NetworksArg)
    (s : Page) :
    (populateNetworks upper list s).page.submitHidden = s.submitHidden ∧
    (populateNetworks upper list s).page.submitText = s.submitText := by
  rw [populateNetworks_eq]
  split_ifs <;> exact ⟨rfl, rfl⟩

theorem populateNetworks_empty (upper : String → String) (s : Page) :
    populateNetworks upper (.list []) s =
      .done { s with
        networks := some []
        options := [hiddenSentinel]
        selected := some 0
        identityHidden := !(visibilityOf (upper "HIDDEN")).identityShown
        passphraseHidden := !(visibilityOf (upper "HIDDEN")).passphraseShown
        hiddenSsidHidden := !(visibilityOf (upper "HIDDEN")).hiddenSsidShown } := by
  rw [populateNetworks_eq]
  rfl

theorem renderedPrefix_get (upper : String → String) (l : List JSValue) (i : Nat)
    (e : JSValue) (hi : l[i]? = some e)
    (hpre : allRender upper (l.take (i + 1)) = true) :
    (renderedPrefix upper l)[i]? = renderOption upper e := by
  induction l generalizing i with
  | nil => simp at hi
  | cons a l ih =>
    simp only [List.take_succ_cons, allRender, List.all_cons, Bool.and_eq_true] at hpre
    obtain ⟨ha, hrest⟩ := hpre
    obtain ⟨o, ho⟩ := Option.isSome_iff_exists.mp ha
    cases i with
    | zero =>
      simp only [List.getElem?_cons_zero, Option.some.injEq] at hi
      subst hi
      simp [renderedPrefix, ho]
    | succ k =>
      simp only [List.getElem?_cons_succ] at hi
      simp only [renderedPrefix, ho, List.getElem?_cons_succ]
      exact ih k hi hrest

theorem renderedPrefix_length (upper : String → String) (l : List JSValue)
    (h : allRender upper l = true) : (renderedPrefix upper l).length = l.length := by
  induction l with
  | nil => rfl
  | cons a l ih =>
    simp only [allRender, List.all_cons, Bool.and_eq_true] at h
    obtain ⟨o, ho⟩ := Option.isSome_iff_exists.mp h.1
    simp only [renderedPrefix, ho, List.length_cons]
    rw [ih h.2]

theorem allRender_take (upper : String → String) (l : List JSValue) (n : Nat)
    (h : allRender upper l = true) : allRender upper (l.take n) = true := by
  simp only [allRender, List.all_eq_true] at h ⊢
  exact fun x hx => h x (List.mem_of_mem_take hx)

theorem resolveList_of_resolvesTo (parse : String → Option JSValue) (data : JSValue)
    (l : List JSValue) (h : ResolvesTo parse data l) :
    resolveList parse data = .arr l := by
  rcases h with h | ⟨text, h, hp⟩
  · subst h; simp [resolveList, JSValue.or, JSValue.truthy]
  · subst h; simp [resolveList, hp]

theorem onNetworksSuccess_nonEmpty (parse : String → Option JSValue)
    (upper : String → String) (data : JSValue) (l : List JSValue) (s : Page)
    (h : resolveList parse data = .arr l) (hne : l ≠ []) :
    onNetworksSuccess parse upper data s =
      populateNetworks upper (.list l)
        { s with beforeSubmitDisplayed := true, noNetworksHidden := true } := by
  unfold onNetworksSuccess
  simp only [h]
  cases l with
  | nil => exact absurd rfl hne
  | cons a l => simp [notArrayOrEmpty, arrayItems]

theorem onNetworksSuccess_empty (parse : String → Option JSValue)
    (upper : String → String) (data : JSValue) (s : Page)
    (h : notArrayOrEmpty (resolveList parse data) = true) :
    onNetworksSuccess parse upper data s = onNetworksError upper s := by
  unfold onNetworksSuccess onNetworksError
  simp only [h]
  rfl

theorem nonSuccess_notArrayOrEmpty (parse : String → Option JSValue) (data : JSValue)
    (h : NonSuccess parse (.success data)) :
    notArrayOrEmpty (resolveList parse data) = true := by
  cases h with
  | emptyArray => simp [resolveList, JSValue.or, JSValue.truthy, notArrayOrEmpty]
  | unparseable text h => simp [resolveList, h, notArrayOrEmpty]
  | parsedEmpty text h => simp [resolveList, h, notArrayOrEmpty]
  | parsedNonArray text v h hv =>
    simp only [resolveList, h]
    cases v <;> simp_all [notArrayOrEmpty]
  | otherBody hs ha =>
    cases data <;> simp_all [resolveList, JSValue.or, JSValue.truthy, notArrayOrEmpty]
    all_goals split_ifs <;> simp [notArrayOrEmpty]

theorem onNetworksError_eq (upper : String → String) (s : Page) :
    onNetworksError upper s =
      .done { s with
        networks := some []
        options := [hiddenSentinel]
        selected := some 0
        identityHidden := !(visibilityOf (upper "HIDDEN")).identityShown
        passphraseHidden := !(visibilityOf (upper "HIDDEN")).passphraseShown
        hiddenSsidHidden := !(visibilityOf (upper "HIDDEN")).hiddenSsidShown
        beforeSubmitDisplayed := false
        noNetworksHidden := false } := by
  unfold onNetworksError
  simp only [populateNetworks_empty]

theorem nonSuccess_runs_error_callback (parse : String → Option JSValue)
    (upper : String → String) (r : FetchOutcome) (s : Page) (h : NonSuccess parse r) :
    handleFetch parse upper r s = onNetworksError upper s := by
  cases r with
  | failure => rfl
  | success data =>
    simp only [handleFetch]
    exact onNetworksSuccess_empty _ _ _ _ (nonSuccess_notArrayOrEmpty parse data h)

theorem handleFetch_eq (parse : String → Option JSValue) (upper : String → String)
    (r : FetchOutcome) :
    ∃ (l : List JSValue) (b : Bool),
      ∀ t : Page, handleFetch parse upper r t =
        populateNetworks upper (.list l)
          { t with beforeSubmitDisplayed := b, noNetworksHidden := b } := by
  cases r with
  | failure => exact ⟨[], false, fun t => rfl⟩
  | success data =>
    by_cases h : notArrayOrEmpty (resolveList parse data) = true
    · exact ⟨[], false, fun t => by
        simp only [handleFetch]; rw [onNetworksSuccess_empty _ _ _ _ h]; rfl⟩
    · refine ⟨arrayItems (resolveList parse data), true, fun t => ?_⟩
      simp only [handleFetch, onNetworksSuccess, h]
      rfl

theorem outcome_cases (parse : String → Option JSValue) (r : FetchOutcome) :
    NonSuccess parse r ∨
    ∃ (data : JSValue) (l : List JSValue),
      r = .success data ∧ ResolvesTo parse data l ∧ l ≠ [] := by
  cases r with
  | failure => exact Or.inl .transport
  | success data =>
    cases data with
    | str text =>
      cases hp : parse text with
      | none => exact Or.inl (.unparseable text hp)
      | some v =>
        cases v with
        | arr items =>
          cases items with
          | nil => exact Or.inl (.parsedEmpty text hp)
          | cons a rest =>
            exact Or.inr ⟨_, a :: rest, rfl, Or.inr ⟨text, rfl, hp⟩, by simp⟩
        | _ => exact Or.inl (.parsedNonArray text _ hp (fun _ h => by cases h))
    | arr items =>
      cases items with
      | nil => exact Or.inl .emptyArray
      | cons a rest => exact Or.inr ⟨_, a :: rest, rfl, Or.inl rfl, by simp⟩
    | _ => exact Or.inl (.otherBody _ (fun _ h => by cases h) (fun _ h => by cases h))

theorem renderOption_wellFormed (upper : String → String) (e : JSValue)
    (name sec : String) (hn : e.getProp "ssid" = .str name)
    (hs : e.getProp "security" = .str sec) :
    renderOption upper e = some ⟨name, some name, some (upper sec)⟩ := by
  cases e with
  | obj fields =>
    simp only [renderOption, entrySsid, entrySec, JSValue.and, JSValue.or,
      JSValue.truthy, hn, hs]
    by_cases h1 : name = "" <;> by_cases h2 : sec = "" <;>
      simp [h1, h2, JSValue.toStr]
  | _ => simp [JSValue.getProp] at hn

theorem entrySec_of_str (upper : String → String) (e : JSValue) (sec : String)
    (hs : e.getProp "security" = .str sec) : entrySec upper e = some (upper sec) := by
  cases e with
  | obj fields =>
    simp only [entrySec, JSValue.and, JSValue.or, JSValue.truthy, hs]
    by_cases h2 : sec = "" <;> simp [h2, JSValue.toStr]
  | _ => simp [JSValue.getProp] at hs

theorem entrySec_of_falsy (upper : String → String) (e : JSValue)
    (hs : (e.getProp "security").truthy = false) : entrySec upper e = some (upper "") := by
  have h : (e.and (e.getProp "security")).truthy = false := by
    unfold JSValue.and
    by_cases he : e.truthy = true
    · simp [he, hs]
    · simp [he]
  simp [entrySec, JSValue.or, h, JSValue.toStr]

theorem renderOption_dataSecurity (upper : String → String) (e : JSValue)
    (o : OptionEl) (sec : String) (hs : entrySec upper e = some sec)
    (ho : renderOption upper e = some o) : o.dataSecurity = some sec := by
  simp only [renderOption, hs] at ho
  cases ht : (entrySsid e).toStr with
  | none => simp [ht] at ho
  | some text =>
    simp only [ht, Option.some.injEq] at ho
    rw [← ho]

theorem populated_option (upper : String → String) (l : List JSValue) (i : Nat)
    (e : JSValue) (s : Page) (hi : l[i]? = some e)
    (hpre : allRender upper (l.take (i + 1)) = true) :
    ∃ o, renderOption upper e = some o ∧
      (populateNetworks upper (.list l) s).page.options[i + 1]? = some o := by
  have hget := renderedPrefix_get upper l i e hi hpre
  have hsome : (renderOption upper e).isSome = true := by
    simp only [allRender, List.all_eq_true] at hpre
    refine hpre e (List.mem_iff_getElem?.mpr ⟨i, ?_⟩)
    rw [List.getElem?_take_of_lt (Nat.lt_succ_self i)]
    exact hi
  obtain ⟨o, ho⟩ := Option.isSome_iff_exists.mp hsome
  refine ⟨o, ho, ?_⟩
  rw [populateNetworks_options]
  simp [NetworksArg.orEmpty, hget, ho]

theorem selectOption_populated (upper : String → String) (l : List JSValue)
    (i : Nat) (e : JSValue) (s : Page) (sec : String) (hi : l[i]? = some e)
    (hpre : allRender upper (l.take (i + 1)) = true)
    (hs : entrySec upper e = some sec) :
    (selectOption upper (i + 1) (populateNetworks upper (.list l) s).page).groups
      = visibilityOf (upper (attrOrNone (some sec))) := by
  obtain ⟨o, ho, hopt⟩ := populated_option upper l i e s hi hpre
  have hd := renderOption_dataSecurity upper e o sec hs ho
  unfold selectOption
  rw [showHideFormFields_groups]
  simp only [selectedSecurity, Page.selectedOption, List.get?_eq_getElem?, hopt,
    Option.bind, hd]

theorem onNetworksSuccess_wellFormed (parse : String → Option JSValue)
    (upper : String → String) (data : JSValue) (l : List JSValue) (s : Page)
    (hres : ResolvesTo parse data l) (hne : l ≠ []) (hall : allRender upper l = true) :
    (onNetworksSuccess parse upper data s).completed = true ∧
    (onNetworksSuccess parse upper data s).page.beforeSubmitDisplayed = true ∧
    (onNetworksSuccess parse upper data s).page.noNetworksHidden = true ∧
    (onNetworksSuccess parse upper data s).page.options.length = l.length + 1 ∧
    (onNetworksSuccess parse upper data s).page.options.head? = some hiddenSentinel ∧
    (∀ (i : Nat) (e : JSValue), l[i]? = some e →
      (onNetworksSuccess parse upper data s).page.options[i + 1]?
        = renderOption upper e) ∧
    (∀ (i : Nat) (e : JSValue) (name sec : String), l[i]? = some e →
      e.getProp "ssid" = .str name → e.getProp "security" = .str sec →
      (onNetworksSuccess parse upper data s).page.options[i + 1]?
        = some ⟨name, some name, some (upper sec)⟩) := by
  have hrun := onNetworksSuccess_nonEmpty parse upper data l s
    (resolveList_of_resolvesTo parse data l hres) hne
  have hcat := populateNetworks_catalog upper (.list l)
    { s with beforeSubmitDisplayed := true, noNetworksHidden := true }
  rw [← hrun] at hcat
  have hopt : (onNetworksSuccess parse upper data s).page.options
      = hiddenSentinel :: renderedPrefix upper l := congrArg CatalogView.options hcat
  have hget : ∀ (i : Nat) (e : JSValue), l[i]? = some e →
      (onNetworksSuccess parse upper data s).page.options[i + 1]?
        = renderOption upper e := by
    intro i e hi
    rw [hopt, List.getElem?_cons_succ]
    exact renderedPrefix_get upper l i e hi (allRender_take upper l (i + 1) hall)
  refine ⟨?_, congrArg CatalogView.beforeSubmitDisplayed hcat,
    congrArg CatalogView.noNetworksHidden hcat, ?_, ?_, hget, ?_⟩
  · rw [hrun, populateNetworks_eq]
    simp [NetworksArg.orEmpty, hall, Run.completed]
  · rw [hopt, List.length_cons, renderedPrefix_length upper l hall]
  · rw [hopt]; rfl
  · intro i e name sec hi hn hs
    rw [hget i e hi, renderOption_wellFormed upper e name sec hn hs]

theorem populateNetworks_done_groups (upper : String → String)
    (list : NetworksArg) (s : Page) (hall : allRender upper list.orEmpty = true)
    (hU : upper "HIDDEN" = "HIDDEN") :
    (populateNetworks upper list s).completed = true ∧
    (populateNetworks upper list s).page.selectedOption = some hiddenSentinel ∧
    (populateNetworks upper list s).page.groups = ⟨false, true, true⟩ := by
  rw [populateNetworks_eq, hU]
  simp only [hall, if_true]
  exact ⟨rfl, rfl, rfl⟩

/-! ## Claims on `showHideFormFields` -/

/-- C1: whenever the upper-cased `data-security` of the selected option is
the name of a security class, `showHideFormFields` leaves the identity,
passphrase and hidden-ssid groups exactly as the row of the specification
table for that class says, and any two pages whose selection has that class
end with the same configuration. -/
theorem showHideFormFields_table (upper : String → String) (s : Page)
    (c : SecurityClass) (h : selectedSecurity upper s = c.name) :
    (showHideFormFields upper s).groups = specVisibility c ∧
    ∀ t : Page, selectedSecurity upper t = c.name →
      (showHideFormFields upper t).groups = (showHideFormFields upper s).groups := by
  refine ⟨?_, fun t ht => ?_⟩
  · rw [showHideFormFields_groups, h, visibilityOf_name]
  · rw [showHideFormFields_groups, showHideFormFields_groups, h, ht]

/-- C1, on the page built from `[{ssid:"Office",security:"enterprise"}]`
with that network selected: identity and passphrase shown, hidden-ssid
hidden. -/
theorem showHideFormFields_table_witness :
    selectedSecurity asciiUpper
        { (populateNetworks asciiUpper (.list [entry "Office" "enterprise"]) busyPage).page
          with selected := some 1 } = SecurityClass.ENTERPRISE.name ∧
    (showHideFormFields asciiUpper
        { (populateNetworks asciiUpper (.list [entry "Office" "enterprise"]) busyPage).page
          with selected := some 1 }).groups = ⟨true, true, false⟩ :=
  ⟨by decide,
   (showHideFormFields_table asciiUpper
      { (populateNetworks asciiUpper (.list [entry "Office" "enterprise"]) busyPage).page
        with selected := some 1 } SecurityClass.ENTERPRISE (by decide)).1⟩

/-- C2: the groups `showHideFormFields` leaves visible are a function of the
security class of the selection alone: overwriting the prior visibility of
the three groups in any way does not change the result, and running the
handler a second time changes nothing. -/
theorem showHideFormFields_memoryless (upper : String → String) :
    (∃ f : String → Visibility, ∀ s : Page,
        (showHideFormFields upper s).groups = f (selectedSecurity upper s)) ∧
    (∀ (s : Page) (a b c : Bool),
        (showHideFormFields upper
          { s with identityHidden := a, passphraseHidden := b, hiddenSsidHidden := c }).groups
          = (showHideFormFields upper s).groups) ∧
    (∀ s : Page,
        showHideFormFields upper (showHideFormFields upper s)
          = showHideFormFields upper s) := by
  refine ⟨⟨visibilityOf, showHideFormFields_groups upper⟩, fun s a b c => ?_, fun s => ?_⟩
  · rw [showHideFormFields_groups, showHideFormFields_groups, selectedSecurity_setGroups]
  · rw [showHideFormFields_eq upper (showHideFormFields upper s),
      showHideFormFields_security, showHideFormFields_eq upper s]

/-! ## Claims on `populateNetworks` and `fetchNetworks` -/

/-- C3: after `populateNetworks`, whatever it is called with (an array,
`null` or nothing), whatever the select control held before and whether or
not the loop over the entries ran to its end, the first option of the
control is the sentinel: value `''` and `data-security` `'HIDDEN'`. -/
theorem populateNetworks_sentinel_first (upper : String → String)
    (list : NetworksArg) (s : Page) :
    (populateNetworks upper list s).page.options.head?
      = some ⟨"Hidden network", some "", some "HIDDEN"⟩ := by
  rw [populateNetworks_options]
  rfl

/-- C4: every non-success outcome of `fetchNetworks` (transport failure,
empty array, unparseable text, text parsing to an empty array or to a
non-array, any other non-text non-array body) leaves the same state: the
pre-submit region hidden, the no-networks message shown, the stored list
empty and the select control holding the sentinel alone; the callback runs
to its end. -/
theorem handleFetch_nonSuccess (parse : String → Option JSValue)
    (upper : String → String) (r : FetchOutcome) (s : Page)
    (h : NonSuccess parse r) :
    (handleFetch parse upper r s).page.beforeSubmitDisplayed = false ∧
    (handleFetch parse upper r s).page.noNetworksHidden = false ∧
    (handleFetch parse upper r s).page.options = [hiddenSentinel] ∧
    (handleFetch parse upper r s).page.catalog
      = ⟨some [], [hiddenSentinel], false, false⟩ ∧
    (handleFetch parse upper r s).completed = true := by
  rw [nonSuccess_runs_error_callback parse upper r s h, onNetworksError_eq]
  exact ⟨rfl, rfl, rfl, rfl, rfl⟩

/-- C4 on an unparseable body, a body parsing to `null`, an absent body and
a transport failure, starting from a page that shows an older catalog. -/
theorem handleFetch_nonSuccess_witness :
    (handleFetch sampleParse asciiUpper (.success (.str "oops")) busyPage).page.options
      = [hiddenSentinel] ∧
    (handleFetch sampleParse asciiUpper (.success (.str "null")) busyPage).page.noNetworksHidden
      = false ∧
    (handleFetch sampleParse asciiUpper (.success .undefined) busyPage).page.beforeSubmitDisplayed
      = false ∧
    (handleFetch sampleParse asciiUpper .failure busyPage).page.options = [hiddenSentinel] :=
  ⟨(handleFetch_nonSuccess sampleParse asciiUpper (.success (.str "oops")) busyPage
      (.unparseable "oops" (by simp [sampleParse]))).2.2.1,
   (handleFetch_nonSuccess sampleParse asciiUpper (.success (.str "null")) busyPage
      (.parsedNonArray "null" .null (by simp [sampleParse]) (fun _ h => by cases h))).2.1,
   (handleFetch_nonSuccess sampleParse asciiUpper (.success .undefined) busyPage
      (.otherBody .undefined (fun _ h => by cases h) (fun _ h => by cases h))).1,
   (handleFetch_nonSuccess sampleParse asciiUpper .failure busyPage .transport).2.2.1⟩

/-- C5 fails on the code: for the payload
`[{ssid:"A",security:"wpa"}, {ssid:"B",security:{toString:1}}, {ssid:"C",security:"wpa"}]`,
an array of three entries, received while an enterprise network is selected,
the success handler shows the pre-submit region and hides the no-networks
message, but `String` throws on the second entry: the callback stops, the
select control holds the sentinel and the option of `A` only (two options,
not four; none for `C`), and the change event is not triggered, so the
credential groups stay as they were. -/
theorem onNetworksSuccess_stops_at_bad_entry :
    (onNetworksSuccess sampleParse asciiUpper
      (.arr [entry "A" "wpa", badSecurityEntry "B", entry "C" "wpa"])
      enterprisePage).completed = false ∧
    (onNetworksSuccess sampleParse asciiUpper
      (.arr [entry "A" "wpa", badSecurityEntry "B", entry "C" "wpa"])
      enterprisePage).page.beforeSubmitDisplayed = true ∧
    (onNetworksSuccess sampleParse asciiUpper
      (.arr [entry "A" "wpa", badSecurityEntry "B", entry "C" "wpa"])
      enterprisePage).page.noNetworksHidden = true ∧
    (onNetworksSuccess sampleParse asciiUpper
      (.arr [entry "A" "wpa", badSecurityEntry "B", entry "C" "wpa"])
      enterprisePage).page.options = [hiddenSentinel, ⟨"A", some "A", some "WPA"⟩] ∧
    (onNetworksSuccess sampleParse asciiUpper
      (.arr [entry "A" "wpa", badSecurityEntry "B", entry "C" "wpa"])
      enterprisePage).page.options.length ≠ 3 + 1 ∧
    (onNetworksSuccess sampleParse asciiUpper
      (.arr [entry "A" "wpa", badSecurityEntry "B", entry "C" "wpa"])
      enterprisePage).page.options[3]? = none ∧
    enterprisePage.groups = ⟨true, true, false⟩ ∧
    (onNetworksSuccess sampleParse asciiUpper
      (.arr [entry "A" "wpa", badSecurityEntry "B", entry "C" "wpa"])
      enterprisePage).page.groups = ⟨true, true, false⟩ := by
  refine ⟨?_, ?_, ?_, ?_, ?_, ?_, ?_, ?_⟩ <;> decide

/-! ## Claims on the security of an entry -/

/-- C6 as stated fails: the entry `{ssid:"Cafe",security:"wpa3"}` has a
security that is none of the six class names, yet selecting its option
leaves the passphrase group shown. -/
theorem unrecognised_security_not_none :
    (∀ c : SecurityClass, asciiUpper "wpa3" ≠ c.name) ∧
    (selectOption asciiUpper 1
      (populateNetworks asciiUpper (.list [entry "Cafe" "wpa3"]) busyPage).page).groups
      = ⟨false, true, false⟩ ∧
    (selectOption asciiUpper 1
      (populateNetworks asciiUpper (.list [entry "Cafe" "wpa3"]) busyPage).page).groups
      ≠ ⟨false, false, false⟩ := by
  refine ⟨fun c => ?_, by decide, by decide⟩
  cases c <;> decide

/-- C6, amended: for an entry that `populateNetworks` rendered (the loop
threw on none of the entries up to it), the option carries the upper-cased
security. When the security is missing or falsy it defaults to `NONE`:
selecting the option hides the identity, passphrase and hidden-ssid groups
(given that `toUpperCase` fixes `''` and `NONE`). When the security is a
string that upper-cases to none of the six class names it does not default
to `NONE`: selecting the option shows the passphrase group only (given that
`toUpperCase` does not change or empty the upper-cased string). -/
theorem security_default (upper : String → String) (l : List JSValue) (i : Nat)
    (e : JSValue) (s : Page) (hi : l[i]? = some e)
    (hpre : allRender upper (l.take (i + 1)) = true) :
    (∀ sec : String, e.getProp "security" = .str sec →
      ((populateNetworks upper (.list l) s).page.options[i + 1]?).bind
          (fun o => o.dataSecurity)
        = some (upper sec)) ∧
    ((e.getProp "security").truthy = false → upper "" = "" → upper "NONE" = "NONE" →
      (selectOption upper (i + 1) (populateNetworks upper (.list l) s).page).groups
        = ⟨false, false, false⟩) ∧
    (∀ sec : String, e.getProp "security" = .str sec →
      (∀ c : SecurityClass, upper sec ≠ c.name) → upper sec ≠ "" →
      upper (upper sec) = upper sec →
      (selectOption upper (i + 1) (populateNetworks upper (.list l) s).page).groups
        = ⟨false, true, false⟩) := by
  refine ⟨fun sec hs => ?_, fun hf h0 hN => ?_, fun sec hs hc hne hid => ?_⟩
  · obtain ⟨o, ho, hopt⟩ := populated_option upper l i e s hi hpre
    rw [hopt]
    exact renderOption_dataSecurity upper e o (upper sec)
      (entrySec_of_str upper e sec hs) ho
  · rw [selectOption_populated upper l i e s (upper "") hi hpre
      (entrySec_of_falsy upper e hf), h0]
    simp [attrOrNone, hN, visibilityOf]
  · rw [selectOption_populated upper l i e s (upper sec) hi hpre
      (entrySec_of_str upper e sec hs)]
    simp only [attrOrNone, hne, if_false, hid]
    have h1 := hc .NONE
    have h2 := hc .ENTERPRISE
    have h3 := hc .HIDDEN
    simp only [SecurityClass.name] at h1 h2 h3
    simp [visibilityOf, h1, h2, h3]

/-- C6, amended, on `[{ssid:"Open"}, {ssid:"Cafe",security:"wpa3"}]`: the
first network hides every group, the second shows the passphrase group. -/
theorem security_default_witness :
    (selectOption asciiUpper 1
      (populateNetworks asciiUpper
        (.list [.obj [("ssid", .str "Open")], entry "Cafe" "wpa3"]) busyPage).page).groups
      = ⟨false, false, false⟩ ∧
    (selectOption asciiUpper 2
      (populateNetworks asciiUpper
        (.list [.obj [("ssid", .str "Open")], entry "Cafe" "wpa3"]) busyPage).page).groups
      = ⟨false, true, false⟩ :=
  ⟨(security_default asciiUpper [.obj [("ssid", .str "Open")], entry "Cafe" "wpa3"] 0
      (.obj [("ssid", .str "Open")]) busyPage rfl (by decide)).2.1 rfl
      (by decide) (by decide),
   (security_default asciiUpper [.obj [("ssid", .str "Open")], entry "Cafe" "wpa3"] 1
      (entry "Cafe" "wpa3") busyPage rfl (by decide)).2.2 "wpa3" rfl
      (fun c => by cases c <;> decide) (by decide) (by decide)⟩

/-! ## Claims on the connect form -/

/-- C7 fails on the code: the success callback never writes the status
text, so a successful submission that follows a failed one shows the status
message with the failure text, whatever the page was before. -/
theorem connect_success_keeps_failure_text (s : Page) :
    (handleSubmit .ok s).submitText = s.submitText ∧
    (handleSubmit .ok (handleSubmit .failed s)).beforeSubmitDisplayed = false ∧
    (handleSubmit .ok (handleSubmit .failed s)).submitHidden = false ∧
    (handleSubmit .ok (handleSubmit .failed s)).submitText
      = "Failed to submit. Please try again." :=
  ⟨rfl, rfl, rfl, rfl⟩

/-- C8: a failed submission shows the status message with the text
`Failed to submit. Please try again.` and changes nothing else: the
pre-submit region, the options and selection of the select control, the
stored list, the no-networks message and the three credential groups are as
before. -/
theorem connect_failure_frame (s : Page) :
    handleSubmit .failed s
      = { s with submitHidden := false,
                 submitText := "Failed to submit. Please try again." } ∧
    (handleSubmit .failed s).submitHidden = false ∧
    (handleSubmit .failed s).submitText = "Failed to submit. Please try again." ∧
    (handleSubmit .failed s).beforeSubmitDisplayed = s.beforeSubmitDisplayed ∧
    (handleSubmit .failed s).options = s.options ∧
    (handleSubmit .failed s).selected = s.selected ∧
    (handleSubmit .failed s).networks = s.networks ∧
    (handleSubmit .failed s).noNetworksHidden = s.noNetworksHidden ∧
    (handleSubmit .failed s).groups = s.groups :=
  ⟨rfl, rfl, rfl, rfl, rfl, rfl, rfl, rfl, rfl⟩

/-! ## Claims on catalog refresh -/

/-- C9: the catalog left by handling `r1` and then `r2` is the one `r2`
dictates, whatever `r1` and the prior page were. Every outcome `r2` is a
non-success or carries a non-empty array `l`. After a non-success the stored
list is empty, the options are the sentinel alone, the pre-submit region is
hidden and the no-networks message shown. After an array `l` the stored list
is `l`, the options are the sentinel followed by the options rendered for
`l` (one per entry, in order, when no entry throws), the region is shown and
the message hidden. Hence handling `r1` then `r2` leaves the same catalog as
handling `r2` alone, and handling one outcome twice equals handling it
once. -/
theorem handleFetch_last_wins (parse : String → Option JSValue)
    (upper : String → String) (r1 r2 : FetchOutcome) (s : Page) :
    (handleFetch parse upper r2 (handleFetch parse upper r1 s).page).page.catalog
      = (handleFetch parse upper r2 s).page.catalog ∧
    handleFetch parse upper r1 (handleFetch parse upper r1 s).page
      = handleFetch parse upper r1 s ∧
    (NonSuccess parse r2 ∨
      ∃ (data : JSValue) (l : List JSValue),
        r2 = .success data ∧ ResolvesTo parse data l ∧ l ≠ []) ∧
    (NonSuccess parse r2 →
      (handleFetch parse upper r2 (handleFetch parse upper r1 s).page).page.catalog
        = ⟨some [], [hiddenSentinel], false, false⟩) ∧
    (∀ (data : JSValue) (l : List JSValue),
      r2 = .success data → ResolvesTo parse data l → l ≠ [] →
      (handleFetch parse upper r2 (handleFetch parse upper r1 s).page).page.catalog
        = ⟨some l, hiddenSentinel :: renderedPrefix upper l, true, true⟩ ∧
      (allRender upper l = true →
        (renderedPrefix upper l).length = l.length ∧
        ∀ (i : Nat) (e : JSValue), l[i]? = some e →
          (renderedPrefix upper l)[i]? = renderOption upper e)) := by
  refine ⟨?_, ?_, outcome_cases parse r2, fun h => ?_, fun data l hr hres hne => ⟨?_, ?_⟩⟩
  · obtain ⟨l2, b2, h2⟩ := handleFetch_eq parse upper r2
    rw [h2, h2, populateNetworks_catalog, populateNetworks_catalog]
  · obtain ⟨l1, b1, h1⟩ := handleFetch_eq parse upper r1
    rw [h1, h1]
    simp only [populateNetworks_eq]
    split_ifs <;> rfl
  · rw [nonSuccess_runs_error_callback parse upper r2 _ h, onNetworksError_eq]
    rfl
  · subst hr
    simp only [handleFetch]
    rw [onNetworksSuccess_nonEmpty parse upper data l _
      (resolveList_of_resolvesTo parse data l hres) hne, populateNetworks_catalog]
    rfl
  · intro hall
    exact ⟨renderedPrefix_length upper l hall, fun i e hi =>
      renderedPrefix_get upper l i e hi (allRender_take upper l (i + 1) hall)⟩

/-- C9 on a page that shows an older catalog: a transport failure after a
successful fetch leaves the sentinel alone, and a successful fetch of
`[{ssid:"Home",security:"wpa2"}]` after a transport failure stores that
list and shows the region. -/
theorem handleFetch_last_wins_witness :
    (handleFetch sampleParse asciiUpper .failure
      (handleFetch sampleParse asciiUpper
        (.success (.arr [entry "Home" "wpa2"])) busyPage).page).page.catalog
      = ⟨some [], [hiddenSentinel], false, false⟩ ∧
    (handleFetch sampleParse asciiUpper (.success (.arr [entry "Home" "wpa2"]))
      (handleFetch sampleParse asciiUpper .failure busyPage).page).page.catalog
      = ⟨some [entry "Home" "wpa2"],
          hiddenSentinel :: renderedPrefix asciiUpper [entry "Home" "wpa2"], true, true⟩ :=
  ⟨(handleFetch_last_wins sampleParse asciiUpper
      (.success (.arr [entry "Home" "wpa2"])) .failure busyPage).2.2.2.1 .transport,
   ((handleFetch_last_wins sampleParse asciiUpper .failure
      (.success (.arr [entry "Home" "wpa2"])) busyPage).2.2.2.2
      (.arr [entry "Home" "wpa2"]) [entry "Home" "wpa2"] rfl (Or.inl rfl) (by simp)).1⟩

/-- C10 fails on the code: called with `[{ssid:{toString:1},security:"wpa"}]`
while an enterprise network is selected (identity and passphrase shown,
hidden-ssid hidden), `populateNetworks` rebuilds the control, whose selected
option is the sentinel, but `.text` throws on the entry, so the change event
is never triggered: the identity group stays shown and the hidden-ssid group
hidden, where the claim has identity hidden, passphrase and hidden-ssid
shown. -/
theorem populateNetworks_skips_change_event :
    (populateNetworks asciiUpper (.list [badSsidEntry "wpa"]) enterprisePage).completed
      = false ∧
    (populateNetworks asciiUpper (.list [badSsidEntry "wpa"])
      enterprisePage).page.selectedOption = some hiddenSentinel ∧
    enterprisePage.groups = ⟨true, true, false⟩ ∧
    (populateNetworks asciiUpper (.list [badSsidEntry "wpa"]) enterprisePage).page.groups
      = ⟨true, true, false⟩ ∧
    (populateNetworks asciiUpper (.list [badSsidEntry "wpa"]) enterprisePage).page.groups
      ≠ ⟨false, true, true⟩ := by
  refine ⟨?_, ?_, ?_, ?_, ?_⟩ <;> decide

end WifiConnect
